import Mathlib

/-!
# Verification of the `hypr-recorder` screen-capture lifecycle (`src/recorder.rs`)

A shallow embedding of the `Recorder` state machine from `src/recorder.rs`:
the recorder struct, the `start` / `stop` / `cancel` / `finish` lifecycle,
the 60-second timeout watcher, the portal negotiation in `build_pipeline`,
and the stream classifier `split_streams`.

External effects (GStreamer state changes, portal calls, the filesystem)
are modelled by explicit environments: each fallible external call gets a
boolean outcome in the environment, and the filesystem is an association
list from path strings to file sizes.  Every embedded operation also
returns the list of externally visible events it performed, so that
ordering properties ("the session is created before the check") and
frame properties ("the watcher does nothing but swap the flag") can be
stated directly.
-/

namespace HyprRecorder

/-- File system model: an association list from absolute path strings to
file sizes in bytes.  `fsLookup` is `fs::metadata(..).len()` (a `none`
result is a metadata error, i.e. the file does not exist). -/
abbrev FS := List (String × Nat)

/-- Size of the file at `p`, `none` when no such file exists
(`fs::metadata` returning `Err`). -/
def fsLookup (fs : FS) (p : String) : Option Nat :=
  List.lookup p fs

/-- `fs::remove_file`: drop the entry for `p` (a no-op when absent;
the callers in `recorder.rs` ignore the returned error). -/
def fsRemove (fs : FS) (p : String) : FS :=
  fs.filter (fun e => e.1 ≠ p)

/-- `ashpd::desktop::screencast::SourceType` (the three portal source
kinds used by `recorder.rs`). -/
inductive SourceType where
  | monitor
  | window
  | virtual_
deriving DecidableEq, Repr

/-- A `BitFlags<SourceType>` value: which of the three source kinds are
present. -/
structure SourceTypes where
  monitor : Bool
  window : Bool
  virtual_ : Bool
deriving DecidableEq, Repr

/-- Bitwise-or of two source-type bitsets (`|` in the Rust code). -/
def SourceTypes.union (a b : SourceTypes) : SourceTypes :=
  ⟨a.monitor || b.monitor, a.window || b.window, a.virtual_ || b.virtual_⟩

/-- Bitwise-and of two source-type bitsets (`&=` in the Rust code). -/
def SourceTypes.inter (a b : SourceTypes) : SourceTypes :=
  ⟨a.monitor && b.monitor, a.window && b.window, a.virtual_ && b.virtual_⟩

/-- `BitFlags::contains` for a single source kind. -/
def SourceTypes.containsType (a : SourceTypes) (t : SourceType) : Bool :=
  match t with
  | .monitor => a.monitor
  | .window => a.window
  | .virtual_ => a.virtual_

/-- A granted portal stream (`ashpd::desktop::screencast::Stream`):
an optional source type, a PipeWire node id, and an optional opaque id
string. -/
structure Stream where
  source_type : Option SourceType
  node_id : Nat
  id : Option String
deriving DecidableEq, Repr

/-- `pat` is a leading segment of `s` (on character lists). -/
def charsLeadWith : (s pat : List Char) → Bool
  | _, [] => true
  | [], _ :: _ => false
  | c :: cs, p :: ps => (c = p) && charsLeadWith cs ps

/-- `pat` occurs as a contiguous segment of `s` (on character lists). -/
def charsContain : (s pat : List Char) → Bool
  | [], pat => pat.isEmpty
  | c :: rest, pat => charsLeadWith (c :: rest) pat || charsContain rest pat

/-- Rust `String::contains` (substring containment), used by the
classifier fallback (`id.contains("audio")`) and by the portal error
matching (`message.contains("No streams available")`). -/
def containsSubstr (s pat : String) : Bool :=
  charsContain s.data pat.data

/-- The error variants of `src/error.rs` reachable from `recorder.rs`. -/
inductive Error where
  | Io
  | Portal (msg : String)
  | Gstreamer (msg : String)
  | GstreamerState
  | ScreenCapture (msg : String)
  | SystemTime
deriving DecidableEq, Repr

/-- Externally visible events performed by the recorder, in order. -/
inductive Event where
  | abortTimeout
  | swapFlag (prev : Bool)
  | sendEos
  | drainBus
  | setStateNull (ok : Bool)
  | closeSession (ok : Bool)
  | removeFile (p : String) (ok : Bool)
  | logTimeoutStop
  | createSession
  | queryAvailableTypes
  | selectSources
  | startSession
  | openRemote
  | dupFd
  | parseLaunch
  | setStatePlaying (ok : Bool)
  | mkdir
deriving DecidableEq, Repr

/-- The `Recorder` struct of `src/recorder.rs`.  Opaque resources
(`gst::Pipeline`, the portal `Session`, the `OwnedFd`) are modelled as
`Option Nat` tokens: only presence/absence and identity matter to the
lifecycle.  `is_recording` is the `AtomicBool` (atomicity is modelled by
making each swap a single step of the embedded transitions), and
`start_time` is an `Option Nat` instant. -/
structure Recorder where
  pipeline : Option Nat
  session : Option Nat
  remote_fd : Option Nat
  recording_path : Option String
  is_recording : Bool
  start_time : Option Nat
  timeout_task : Option Nat
deriving DecidableEq, Repr

/-- `Recorder::new()`: every resource slot empty, flag false. -/
def Recorder.make : Recorder :=
  ⟨none, none, none, none, false, none, none⟩

/-- Environment for `finish`: outcomes of its fallible external calls
and the filesystem at the time of the metadata / removal calls. -/
structure FinishEnv where
  nullOk : Bool
  closeOk : Bool
  removeOk : Bool
  fs : FS
deriving DecidableEq, Repr

/-- Result of an embedded lifecycle operation: the Rust return value,
the post-state of the `Recorder`, the post-state of the filesystem, and
the trace of external events. -/
structure FinishOut where
  result : Except Error (Option String)
  st : Recorder
  fs : FS
  events : List Event
deriving Repr

/-- The filesystem after a best-effort `fs::remove_file` whose error is
ignored (`let _ = fs::remove_file(..)`): removal happens only when the
call succeeds. -/
def tryRemoveFs (env : FinishEnv) (fs : FS) (p : String) : FS :=
  if env.removeOk then fsRemove fs p else fs

/-- The traced event of a best-effort `fs::remove_file` attempt on `p`. -/
def removeEvent (env : FinishEnv) (p : String) : Event :=
  Event.removeFile p env.removeOk

/-- The tail of `Recorder::finish` after the pipeline block: close the
session (best effort, `self.session.take()` always leaves `none`), drop
the remote fd and start time, take the recording path, then branch on
`discard` / `was_recording` / file size (lines 132-162 of
`src/recorder.rs`). -/
def finishRest (st : Recorder) (env : FinishEnv) (discard : Bool)
    (was_recording : Bool) (events : List Event) : FinishOut :=
  let events :=
    match st.session with
    | some _ => events ++ [Event.closeSession env.closeOk]
    | none => events
  let path := st.recording_path
  let st := { st with session := none, remote_fd := none,
                      start_time := none, recording_path := none }
  if discard then
    ⟨.ok path, st, env.fs, events⟩
  else if !was_recording then
    match path with
    | some stale =>
      ⟨.ok none, st, tryRemoveFs env env.fs stale,
        events ++ [removeEvent env stale]⟩
    | none => ⟨.ok none, st, env.fs, events⟩
  else
    match path with
    | some p =>
      match fsLookup env.fs p with
      | some n =>
        if n > 0 then ⟨.ok (some p), st, env.fs, events⟩
        else
          ⟨.ok none, st, tryRemoveFs env env.fs p,
            events ++ [removeEvent env p]⟩
      | none =>
        ⟨.ok none, st, tryRemoveFs env env.fs p,
          events ++ [removeEvent env p]⟩
    | none => ⟨.ok none, st, env.fs, events⟩

/-- `Recorder::finish(discard)` (lines 110-163 of `src/recorder.rs`):
abort the timeout task, atomically read-and-clear the active flag, tear
the pipeline down (EOS, bus drain, `set_state(Null)?` — note the `?`:
a failed state change returns early with the error), then `finishRest`. -/
def Recorder.finish (st : Recorder) (env : FinishEnv) (discard : Bool) : FinishOut :=
  let events := if st.timeout_task.isSome then [Event.abortTimeout] else []
  let st := { st with timeout_task := none }
  let was_recording := st.is_recording
  let st := { st with is_recording := false }
  let events := events ++ [.swapFlag was_recording]
  match st.pipeline with
  | some _ =>
    let st := { st with pipeline := none }
    let events := events ++ [.sendEos, .drainBus, .setStateNull env.nullOk]
    if env.nullOk then finishRest st env discard was_recording events
    else ⟨.error .GstreamerState, st, env.fs, events⟩
  | none => finishRest st env discard was_recording events

/-- `Recorder::stop()`: `finish(false)`. -/
def Recorder.stop (st : Recorder) (env : FinishEnv) : FinishOut :=
  st.finish env false

/-- Result of `Recorder::cancel()` (which returns `Result<()>`). -/
structure CancelOut where
  result : Except Error Unit
  st : Recorder
  fs : FS
  events : List Event
deriving Repr

/-- `Recorder::cancel()` (lines 89-100): `finish(true)?`; if a path came
back, best-effort delete it (the error is only logged); return `Ok(())`. -/
def Recorder.cancel (st : Recorder) (env : FinishEnv) : CancelOut :=
  match st.finish env true with
  | ⟨.ok (some path), st', fs, ev⟩ =>
    ⟨.ok (), st', tryRemoveFs env fs path, ev ++ [removeEvent env path]⟩
  | ⟨.ok none, st', fs, ev⟩ => ⟨.ok (), st', fs, ev⟩
  | ⟨.error e, st', fs, ev⟩ => ⟨.error e, st', fs, ev⟩

/-- `Recorder::is_recording()`: pure read of the flag. -/
def Recorder.isRecording (st : Recorder) : Bool :=
  st.is_recording

/-- `Recorder::elapsed()`: `self.start_time.map(|start| start.elapsed())`,
with `start.elapsed()` at instant `now` modelled as `now - start`. -/
def Recorder.elapsed (st : Recorder) (now : Nat) : Option Nat :=
  st.start_time.map (fun s => now - s)

/-- The body of the spawned timeout watcher after its 60 s sleep
(lines 76-79): atomically swap the flag to false and log the auto-stop
only when the swap observed true.  Returns the post-state, the observed
previous flag value, and the trace. -/
def timeoutFire (st : Recorder) : Recorder × Bool × List Event :=
  let prev := st.is_recording
  let st := { st with is_recording := false }
  if prev then (st, prev, [.swapFlag prev, .logTimeoutStop])
  else (st, prev, [.swapFlag prev])

/-- `Recorder::split_streams` (lines 274-314): fold over the granted
streams filling a video slot (Monitor/Window, or untyped with an id not
containing "audio") and an audio slot (Virtual, or untyped with an id
containing "audio"), last writer wins; fail when the video slot stays
empty. -/
def splitStep (acc : Option Stream × Option Stream) (stream : Stream) :
    Option Stream × Option Stream :=
  match stream.source_type with
  | some .monitor => (some stream, acc.2)
  | some .window => (some stream, acc.2)
  | some .virtual_ => (acc.1, some stream)
  | none =>
    if (stream.id.map (fun i => containsSubstr i "audio")).getD false then
      (acc.1, some stream)
    else (some stream, acc.2)

/-- Completion of `split_streams`: fail when no video slot was filled
(lines 298-313). -/
def split_streams (streams : List Stream) : Except Error (Stream × Option Stream) :=
  match streams.foldl splitStep (none, none) with
  | (some v, maybe_audio) => .ok (v, maybe_audio)
  | (none, _) => .error (.ScreenCapture "Portal did not provide a video stream")

/-- The portal / GStreamer environment consumed by
`Recorder::build_pipeline`: the outcome of each fallible external call,
the advertised source-type bitset, the granted streams, and the opaque
resource tokens handed back on success. -/
structure Broker where
  newOk : Bool
  createOk : Bool
  availOk : Bool
  available : SourceTypes
  selectOk : Bool
  startErr : Option String
  streams : List Stream
  openOk : Bool
  dupOk : Bool
  parseOk : Bool
  sessionId : Nat
  remoteId : Nat
  pipelineId : Nat
deriving Repr

/-- The `PipelineResources` struct returned by `build_pipeline`. -/
structure PipelineResources where
  pipeline : Nat
  session : Nat
  remote_fd : Nat
deriving DecidableEq, Repr

/-- The diagnostic message translated from the portal's loosely-typed
"No streams available" failure (lines 219-221 and 237-239). -/
def noStreamsMsg : String :=
  "Portal did not return any streams. Please ensure you selected a source and that audio capture is enabled in your compositor portal configuration."

/-- The fail-fast message when the portal advertises neither monitor nor
window sources (lines 194-197). -/
def noSourcesMsg : String :=
  "Portal did not advertise any monitor or window sources to capture"

/-- `Recorder::create_pipeline` (lines 316-346), coarsely: duplicate the
remote fd once per source branch (`dup_fd` may fail with `Io`), then
`gst::parse::launch` the textual graph description (may fail with a
GStreamer parse error).  The graph description itself carries no
lifecycle state, so only the fallibility and the events are modelled. -/
def create_pipeline (b : Broker) (audio : Option Stream) :
    Except Error Nat × List Event :=
  if !b.dupOk then (.error .Io, [])
  else
    let dupEvents := match audio with
      | some _ => [Event.dupFd, Event.dupFd]
      | none => [Event.dupFd]
    if !b.parseOk then
      (.error (.Gstreamer "parse"), dupEvents ++ [Event.parseLaunch])
    else (.ok b.pipelineId, dupEvents ++ [Event.parseLaunch])

/-- `Recorder::build_pipeline` (lines 177-272): create the screencast
proxy and a session, query available source types, request
{Monitor ∪ Window} plus Virtual when advertised, intersect with what is
available, fail fast when the intersection has neither Monitor nor
Window, select sources, start the session (translating the portal's
"No streams available" failure into a diagnostic message), open the
PipeWire remote, classify the streams, and build the pipeline. -/
def build_pipeline (b : Broker) : Except Error PipelineResources × List Event :=
  if !b.newOk then (.error (.Portal "screencast proxy"), [])
  else if !b.createOk then (.error (.Portal "create session"), [])
  else
    let events := [Event.createSession]
    if !b.availOk then
      (.error (.Portal "available source types"), events ++ [Event.queryAvailableTypes])
    else
      let events := events ++ [Event.queryAvailableTypes]
      let requested := SourceTypes.union ⟨true, true, false⟩ ⟨false, false, false⟩
      let audio_supported := b.available.containsType .virtual_
      let requested := if audio_supported then
          SourceTypes.union requested ⟨false, false, true⟩
        else requested
      let requested := SourceTypes.inter requested b.available
      if !requested.containsType .monitor && !requested.containsType .window then
        (.error (.ScreenCapture noSourcesMsg), events)
      else if !b.selectOk then
        (.error (.Portal "select sources"), events ++ [Event.selectSources])
      else
        let events := events ++ [Event.selectSources]
        match b.startErr with
        | some message =>
          if containsSubstr message "No streams available" then
            (.error (.ScreenCapture noStreamsMsg), events ++ [Event.startSession])
          else (.error (.Portal message), events ++ [Event.startSession])
        | none =>
          let events := events ++ [Event.startSession]
          if !b.openOk then
            (.error (.Portal "open pipewire remote"), events)
          else
            let events := events ++ [Event.openRemote]
            match split_streams b.streams with
            | .error e => (.error e, events)
            | .ok (_, audio) =>
              match create_pipeline b audio with
              | (.error e, ev) => (.error e, events ++ ev)
              | (.ok pid, ev) =>
                (.ok ⟨pid, b.sessionId, b.remoteId⟩, events ++ ev)

/-- Environment for `Recorder::start`: the outcome of
`SystemTime::now().elapsed()` and of `create_dir_all`, the directories
used to compute the output path, the broker environment, the outcome of
`set_state(Playing)`, the current instant, and a token for the spawned
timeout task. -/
structure StartEnv where
  timeOk : Bool
  timestamp : Nat
  homeDir : Option String
  cwd : Option String
  mkdirOk : Bool
  broker : Broker
  playOk : Bool
  now : Nat
  taskId : Nat
deriving Repr

/-- `Recorder::recording_path` (lines 165-175): a timestamped mp4
filename under `~/Recordings`, falling back to the working directory,
then `/tmp`. -/
def recordingPathOf (env : StartEnv) : Except Error String :=
  if !env.timeOk then .error .SystemTime
  else
    let filename := "capture_" ++ toString env.timestamp ++ ".mp4"
    let base_dir :=
      ((env.homeDir.map (fun d => d ++ "/Recordings")).orElse
        (fun _ => env.cwd)).getD "/tmp"
    .ok (base_dir ++ "/" ++ filename)

/-- Result of `Recorder::start` (which returns `Result<()>`). -/
structure StartOut where
  result : Except Error Unit
  st : Recorder
  events : List Event
deriving Repr

/-- `Recorder::start` (lines 53-83): no-op when the flag is already set;
otherwise compute the output path, create its parent directory, run
`build_pipeline`, move the pipeline to `Playing`, and only then populate
every resource slot, set the flag, and spawn the timeout watcher.
Every failure returns before any field of `self` is assigned. -/
def Recorder.start (st : Recorder) (env : StartEnv) : StartOut :=
  if st.is_recording then ⟨.ok (), st, []⟩
  else
    match recordingPathOf env with
    | .error e => ⟨.error e, st, []⟩
    | .ok output_path =>
      if !env.mkdirOk then ⟨.error .Io, st, []⟩
      else
        match build_pipeline env.broker with
        | (.error e, ev) => ⟨.error e, st, [Event.mkdir] ++ ev⟩
        | (.ok res, ev) =>
          if !env.playOk then
            ⟨.error .GstreamerState, st,
              [Event.mkdir] ++ ev ++ [Event.setStatePlaying false]⟩
          else
            ⟨.ok (),
              { pipeline := some res.pipeline,
                session := some res.session,
                remote_fd := some res.remote_fd,
                recording_path := some output_path,
                is_recording := true,
                start_time := some env.now,
                timeout_task := some env.taskId },
              [Event.mkdir] ++ ev ++ [Event.setStatePlaying true]⟩

/-! ## Derived notions and concrete fixtures -/

/-- The classification policy of `split_streams`, per descriptor: a
stream fills the video slot iff its source type is Monitor or Window,
or it has no source type and its id does not contain "audio" (including
when it has no id at all). -/
def classifiesAsVideo (s : Stream) : Bool :=
  match s.source_type with
  | some .monitor => true
  | some .window => true
  | some .virtual_ => false
  | none => !((s.id.map (fun i => containsSubstr i "audio")).getD false)

/-- A descriptor whose advertised source type is Monitor or Window. -/
def isMonitorOrWindow (s : Stream) : Bool :=
  s.source_type = some SourceType.monitor || s.source_type = some SourceType.window

/-- The observable-resource invariant of the spec: the pipeline, the
session and the remote fd are either all populated or all empty. -/
def consistent (st : Recorder) : Bool :=
  (st.pipeline.isSome && st.session.isSome && st.remote_fd.isSome) ||
  (st.pipeline.isNone && st.session.isNone && st.remote_fd.isNone)

/-- A recorder mid-recording: every resource populated, flag set,
start time 0, timeout task armed. -/
def activeState (path : String) : Recorder :=
  ⟨some 1, some 2, some 3, some path, true, some 0, some 7⟩

/-- A finish environment where every external call succeeds. -/
def okEnv (fs : FS) : FinishEnv := ⟨true, true, true, fs⟩

/-- A finish environment where only `set_state(Null)` fails (session
close and file removal succeed). -/
def nullFailEnv (fs : FS) : FinishEnv := ⟨false, true, true, fs⟩

/-- A granted monitor stream. -/
def monitorStream : Stream := ⟨some .monitor, 9, none⟩

/-- A broker where every call succeeds, Monitor and Virtual sources are
advertised, and one monitor stream is granted. -/
def okBroker : Broker :=
  ⟨true, true, true, ⟨true, false, true⟩, true, none, [monitorStream],
    true, true, true, 2, 3, 1⟩

/-- The same broker but advertising neither Monitor nor Window. -/
def noSourcesBroker : Broker := { okBroker with available := ⟨false, false, true⟩ }

/-- A start environment where everything succeeds. -/
def okStartEnv : StartEnv := ⟨true, 42, some "/home/u", none, true, okBroker, true, 100, 7⟩

/-- A start environment whose broker advertises neither Monitor nor
Window (everything else succeeds). -/
def noSourcesStartEnv : StartEnv := { okStartEnv with broker := noSourcesBroker }

/-! ## Helper lemmas -/

theorem finishRest_st (st : Recorder) (env : FinishEnv) (discard w : Bool)
    (ev : List Event) :
    (finishRest st env discard w ev).st =
      { st with session := none, remote_fd := none,
                start_time := none, recording_path := none } := by
  simp only [finishRest]
  repeat' split
  all_goals rfl

theorem finishRest_result_ok (st : Recorder) (env : FinishEnv) (discard w : Bool)
    (ev : List Event) :
    ∃ r, (finishRest st env discard w ev).result = Except.ok r := by
  simp only [finishRest]
  repeat' split
  all_goals exact ⟨_, rfl⟩

theorem finish_st_cleared (st : Recorder) (env : FinishEnv) (discard : Bool)
    (h : st.pipeline = none ∨ env.nullOk = true) :
    (st.finish env discard).st = Recorder.make := by
  unfold Recorder.finish
  rcases hp : st.pipeline with _ | p
  · simp only [hp]
    rw [finishRest_st]
    simp [Recorder.make, hp]
  · rcases h with h | h
    · rw [hp] at h; cases h
    · simp only [hp, h, if_true]
      rw [finishRest_st]
      simp [Recorder.make]

theorem finishRest_result_not_error (st : Recorder) (env : FinishEnv)
    (discard w : Bool) (ev : List Event) (e : Error) :
    (finishRest st env discard w ev).result ≠ Except.error e := by
  simp only [finishRest]
  repeat' split
  all_goals simp

theorem finish_result_error_iff (st : Recorder) (env : FinishEnv) (discard : Bool) :
    (∃ e, (st.finish env discard).result = Except.error e) ↔
      (st.pipeline.isSome = true ∧ env.nullOk = false) := by
  unfold Recorder.finish
  rcases hp : st.pipeline with _ | p
  · simp only [hp, Option.isSome_none, Bool.false_eq_true, false_and, iff_false]
    rintro ⟨e, he⟩
    exact finishRest_result_not_error _ _ _ _ _ e he
  · rcases hnull : env.nullOk with _ | _
    · simp [hp, hnull]
    · simp only [hp, hnull, if_true, Option.isSome_some, true_and,
        Bool.true_eq_false, iff_false]
      rintro ⟨e, he⟩
      exact finishRest_result_not_error _ _ _ _ _ e he

theorem splitStep_video_none (acc : Option Stream × Option Stream) (s : Stream) :
    (splitStep acc s).1 = none ↔ (acc.1 = none ∧ classifiesAsVideo s = false) := by
  unfold splitStep classifiesAsVideo
  rcases s.source_type with _ | t
  · dsimp only
    split <;> simp_all
  · cases t <;> simp

theorem splitStep_fold_video_none (streams : List Stream)
    (acc : Option Stream × Option Stream) :
    (streams.foldl splitStep acc).1 = none ↔
      (acc.1 = none ∧ ∀ s ∈ streams, classifiesAsVideo s = false) := by
  induction streams generalizing acc with
  | nil => simp
  | cons s rest ih =>
    rw [List.foldl_cons, ih (splitStep acc s), splitStep_video_none]
    constructor
    · rintro ⟨⟨h1, h2⟩, h3⟩
      exact ⟨h1, by simpa using And.intro h2 h3⟩
    · rintro ⟨h1, h⟩
      simp only [List.mem_cons] at h
      exact ⟨⟨h1, h s (Or.inl rfl)⟩, fun t ht => h t (Or.inr ht)⟩

theorem split_streams_fails_iff (streams : List Stream) :
    split_streams streams =
        Except.error (Error.ScreenCapture "Portal did not provide a video stream") ↔
      ∀ s ∈ streams, classifiesAsVideo s = false := by
  unfold split_streams
  have hfold := splitStep_fold_video_none streams (none, none)
  rcases hf : streams.foldl splitStep (none, none) with ⟨v, a⟩
  rw [hf] at hfold
  simp only [true_and] at hfold
  rcases v with _ | v
  · simpa using hfold.mp rfl
  · simp only [reduceCtorEq, false_iff]
    intro h
    exact absurd (hfold.mpr h) (by simp)

theorem finishRest_events_mem (st : Recorder) (env : FinishEnv) (discard w : Bool)
    (ev : List Event) (x : Event) (hx : x ∈ ev) :
    x ∈ (finishRest st env discard w ev).events := by
  simp only [finishRest]
  repeat' split
  all_goals simp_all

theorem finishRest_no_new_swap (st : Recorder) (env : FinishEnv) (discard w : Bool)
    (ev : List Event) (b : Bool)
    (h : Event.swapFlag b ∈ (finishRest st env discard w ev).events) :
    Event.swapFlag b ∈ ev := by
  simp only [finishRest] at h
  revert h
  repeat' split
  all_goals intro h
  all_goals simp_all [removeEvent]

theorem finish_flag_cleared (st : Recorder) (env : FinishEnv) (discard : Bool) :
    (st.finish env discard).st.is_recording = false := by
  simp only [Recorder.finish]
  repeat' split
  all_goals (try rw [finishRest_st])
  all_goals rfl

theorem finish_emits_swap (st : Recorder) (env : FinishEnv) (discard : Bool) :
    Event.swapFlag st.is_recording ∈ (st.finish env discard).events := by
  simp only [Recorder.finish]
  repeat' split
  all_goals first
    | (apply finishRest_events_mem; simp)
    | simp

theorem finish_swap_only_entry (st : Recorder) (env : FinishEnv) (discard : Bool)
    (b : Bool) (h : Event.swapFlag b ∈ (st.finish env discard).events) :
    b = st.is_recording := by
  simp only [Recorder.finish] at h
  revert h
  repeat' split
  all_goals intro h
  all_goals (try replace h := finishRest_no_new_swap _ _ _ _ _ _ h)
  all_goals simp_all

theorem timeoutFire_st (st : Recorder) :
    (timeoutFire st).1 = { st with is_recording := false } := by
  simp only [timeoutFire]
  split <;> rfl

theorem finishRest_discard (st : Recorder) (env : FinishEnv) (w : Bool)
    (ev : List Event) :
    (finishRest st env true w ev).result = Except.ok st.recording_path ∧
    (finishRest st env true w ev).fs = env.fs := by
  simp [finishRest]

theorem finishRest_discard_events (st : Recorder) (env : FinishEnv) (w : Bool)
    (ev : List Event) :
    (finishRest st env true w ev).events = ev ∨
    (finishRest st env true w ev).events = ev ++ [Event.closeSession env.closeOk] := by
  rcases h : st.session with _ | s <;> simp [finishRest, h]

theorem fsLookup_fsRemove (fs : FS) (p : String) :
    fsLookup (fsRemove fs p) p = none := by
  induction fs with
  | nil => rfl
  | cons e rest ih =>
    rcases e with ⟨k, v⟩
    by_cases h : k = p
    · simpa [fsRemove, List.filter, h] using ih
    · have hd : (decide (k ≠ p)) = true := decide_eq_true h
      have hbeq : (p == k) = false := by
        rw [beq_eq_false_iff_ne]
        exact fun hq => h hq.symm
      simp only [fsRemove, List.filter] at ih ⊢
      simp only [hd, fsLookup, List.lookup, hbeq] at ih ⊢
      exact ih

theorem start_shape (st : Recorder) (env : StartEnv) :
    ((st.start env).st = st ∧
      ((st.start env).result = Except.ok () → st.is_recording = true)) ∨
    ((st.start env).result = Except.ok () ∧
      ∃ pid sid rid outp,
        (st.start env).st =
          ⟨some pid, some sid, some rid, some outp, true, some env.now,
            some env.taskId⟩) := by
  unfold Recorder.start
  repeat' split
  · exact Or.inl ⟨rfl, fun _ => by assumption⟩
  · exact Or.inl ⟨rfl, fun h => by cases h⟩
  · exact Or.inl ⟨rfl, fun h => by cases h⟩
  · exact Or.inl ⟨rfl, fun h => by cases h⟩
  · exact Or.inl ⟨rfl, fun h => by cases h⟩
  · exact Or.inr ⟨rfl, _, _, _, _, rfl⟩

theorem cancel_st_eq_finish_st (st : Recorder) (env : FinishEnv) :
    (st.cancel env).st = (st.finish env true).st := by
  unfold Recorder.cancel
  rcases hout : st.finish env true with ⟨res, st', fs', ev⟩
  rcases res with e | r
  · rfl
  · rcases r with _ | p <;> rfl

theorem finishRest_mem_discard (st : Recorder) (env : FinishEnv) (w : Bool)
    (ev : List Event) (x : Event)
    (h : x ∈ (finishRest st env true w ev).events) :
    x ∈ ev ∨ x = Event.closeSession env.closeOk := by
  rcases finishRest_discard_events st env w ev with hev | hev <;>
    rw [hev] at h <;> simp_all

theorem finish_no_remove_when_discard (st : Recorder) (env : FinishEnv)
    (p : String) (ok : Bool) :
    Event.removeFile p ok ∉ (st.finish env true).events := by
  simp only [Recorder.finish]
  repeat' split
  all_goals intro hmem
  all_goals
    try (rcases finishRest_mem_discard _ _ _ _ _ hmem with h | h <;> simp_all)
  all_goals simp_all

theorem timeoutFire_observed (st : Recorder) :
    (timeoutFire st).2.1 = st.is_recording := by
  simp only [timeoutFire]
  split <;> simp_all

theorem timeoutFire_events_when_false (st : Recorder)
    (h : st.is_recording = false) :
    (timeoutFire st).2.2 = [Event.swapFlag false] := by
  simp [timeoutFire, h]

theorem finishRest_save (st : Recorder) (env : FinishEnv) (ev : List Event)
    (p : String) (hpath : st.recording_path = some p) :
    ((fsLookup env.fs p = none ∨ fsLookup env.fs p = some 0) →
      ((finishRest st env false true ev).result = Except.ok none ∧
       Event.removeFile p env.removeOk ∈ (finishRest st env false true ev).events ∧
       (env.removeOk = true →
         fsLookup (finishRest st env false true ev).fs p = none))) ∧
    (∀ n, fsLookup env.fs p = some n → 0 < n →
      ((finishRest st env false true ev).result = Except.ok (some p) ∧
       (finishRest st env false true ev).fs = env.fs)) := by
  constructor
  · rintro (hf | hf) <;>
      refine ⟨?_, ?_, ?_⟩ <;>
        simp [finishRest, hpath, hf, removeEvent] <;>
          (intro hrm; simp [tryRemoveFs, hrm, fsLookup_fsRemove])
  · intro n hf hn
    constructor <;> simp [finishRest, hpath, hf, hn]

/-! ## Claims -/

/-- C1, counterexample: with a populated pipeline and an environment in
which the only failing external call is the teardown step
`set_state(Null)` (session close and file removal both succeed, and the
file even has positive size), `finish(discard = false)` returns an
error.  This refutes the claim that failures of the teardown steps never
cause `finish` to return an error: `pipeline.set_state(gst::State::Null)?`
at line 129 of `src/recorder.rs` propagates its failure. -/
theorem C1_counterexample :
    (Recorder.finish (activeState "/rec/a.mp4")
        (nullFailEnv [("/rec/a.mp4", 9)]) false).result =
      Except.error Error.GstreamerState := rfl

/-- C1 (amended): `finish` returns an error exactly when a pipeline is
present and forcing it to the Null state fails; that is the only error
`finish` can return.  In particular a broker-session close failure and a
stale/empty-file deletion failure (the `closeOk` and `removeOk` fields
of the environment, universally quantified here) never fail `finish`,
but a pipeline state-change failure during teardown does propagate. -/
theorem C1_teardown_error_characterization (st : Recorder) (env : FinishEnv)
    (discard : Bool) :
    ((∃ e, (st.finish env discard).result = Except.error e) ↔
      (st.pipeline.isSome = true ∧ env.nullOk = false)) ∧
    (∀ e, (st.finish env discard).result = Except.error e →
      e = Error.GstreamerState) := by
  refine ⟨finish_result_error_iff st env discard, ?_⟩
  intro e he
  simp only [Recorder.finish] at he
  revert he
  repeat' split
  all_goals intro he
  all_goals
    first
    | exact absurd he (finishRest_result_not_error _ _ _ _ _ e)
    | (simp only at he; exact (Except.error.inj he).symm)

/-- C5, counterexample: a granted list holding a single descriptor with
no source type and an id not containing "audio" has zero Monitor/Window
descriptors, yet `split_streams` succeeds (the fallback classifies the
descriptor as video) instead of failing with `NoVideoStream`. -/
theorem C5_counterexample :
    (([⟨none, 5, some "screen"⟩] : List Stream).all
        (fun s => !isMonitorOrWindow s)) = true ∧
    split_streams [⟨none, 5, some "screen"⟩] =
      Except.ok (⟨none, 5, some "screen"⟩, none) :=
  ⟨by decide, by rfl⟩

/-- C5 (amended): `split_streams` fails with the `NoVideoStream` error
precisely when no descriptor classifies as video under the classifier's
policy — source type Monitor or Window, or no source type with an id
that does not contain "audio" (an absent id also counts as video).  A
list with zero Monitor/Window descriptors can therefore still succeed,
through the untyped-descriptor fallback. -/
theorem C5_no_video_iff (streams : List Stream) :
    split_streams streams =
        Except.error
          (Error.ScreenCapture "Portal did not provide a video stream") ↔
      streams.all (fun s => !classifiesAsVideo s) = true := by
  rw [split_streams_fails_iff]
  simp

/-- C7, counterexample: `finish(discard = true)` with an output path set
does not return that path when a pipeline is present and the forced
state change to Null fails — it returns the propagated state-change
error instead (and the path field is left in place). -/
theorem C7_counterexample :
    (Recorder.finish (activeState "/rec/c7.mp4") (nullFailEnv []) true).result =
      Except.error Error.GstreamerState := rfl

/-- C7 (amended): provided the pipeline state change to Null during
teardown succeeds (or no pipeline is present; otherwise `finish`
propagates that error), `finish(discard = true)` returns the prior
output path — whatever it was, and regardless of the active flag — and
performs no file deletion: the filesystem is returned unchanged and no
removal is even attempted. -/
theorem C7_discard_returns_path (st : Recorder) (env : FinishEnv)
    (hnull : st.pipeline = none ∨ env.nullOk = true) :
    (st.finish env true).result = Except.ok st.recording_path ∧
    (st.finish env true).fs = env.fs ∧
    ∀ p ok, Event.removeFile p ok ∉ (st.finish env true).events := by
  refine ⟨?_, ?_, fun p ok => finish_no_remove_when_discard st env p ok⟩
  · unfold Recorder.finish
    rcases hp : st.pipeline with _ | q
    · simp only [hp]
      exact (finishRest_discard _ _ _ _).1
    · rcases hnull with h | h
      · rw [hp] at h; cases h
      · simp only [hp, h, if_true]
        exact (finishRest_discard _ _ _ _).1
  · unfold Recorder.finish
    rcases hp : st.pipeline with _ | q
    · simp only [hp]
      exact (finishRest_discard _ _ _ _).2
    · rcases hnull with h | h
      · rw [hp] at h; cases h
      · simp only [hp, h, if_true]
        exact (finishRest_discard _ _ _ _).2

/-- C7 witness: at a concrete populated recorder whose flag is already
false (so independence of `wasActive` is exercised) and an all-ok
environment, `finish(true)` returns the prior path. -/
theorem C7_discard_returns_path_witness :
    (Recorder.finish { activeState "/rec/w7.mp4" with is_recording := false }
        (okEnv []) true).result = Except.ok (some "/rec/w7.mp4") :=
  (C7_discard_returns_path
    { activeState "/rec/w7.mp4" with is_recording := false }
    (okEnv []) (Or.inr rfl)).1

/-- C9 (confirmed): the timeout watcher's firing leaves the pipeline,
session, remote fd, recording path, start time and even the stored task
handle unchanged; its only state effect is forcing the active flag to
false.  It logs the auto-stop exactly when the swap observed true, and
its whole trace consists of the swap and (possibly) that log line — in
particular no teardown event, so the pipeline keeps running until a
caller invokes `stop`/`cancel`/`finish`. -/
theorem C9_timeout_frame (st : Recorder) :
    (timeoutFire st).1.pipeline = st.pipeline ∧
    (timeoutFire st).1.session = st.session ∧
    (timeoutFire st).1.remote_fd = st.remote_fd ∧
    (timeoutFire st).1.recording_path = st.recording_path ∧
    (timeoutFire st).1.start_time = st.start_time ∧
    (timeoutFire st).1.timeout_task = st.timeout_task ∧
    (timeoutFire st).1.is_recording = false ∧
    (timeoutFire st).2.1 = st.is_recording ∧
    (Event.logTimeoutStop ∈ (timeoutFire st).2.2 ↔ st.is_recording = true) ∧
    ∀ e ∈ (timeoutFire st).2.2,
      e = Event.swapFlag st.is_recording ∨ e = Event.logTimeoutStop := by
  rcases h : st.is_recording <;> simp [timeoutFire, h]

/-- C10 (confirmed): whenever the underlying `finish(discard = true)`
succeeds, `cancel()` returns success — the environment's `removeOk`
field is universally quantified, so this holds even when deleting the
returned recording file fails (the deletion error is only logged).  And
`cancel` returns `Result<()>`, so no path ever reaches its caller. -/
theorem C10_cancel_ok (st : Recorder) (env : FinishEnv)
    (h : ∃ r, (st.finish env true).result = Except.ok r) :
    (st.cancel env).result = Except.ok () := by
  obtain ⟨r, hr⟩ := h
  unfold Recorder.cancel
  rcases hout : st.finish env true with ⟨res, st', fs', ev⟩
  rw [hout] at hr
  simp only at hr
  subst hr
  rcases r with _ | p <;> rfl

/-- C10 witness: cancelling an active recording whose file deletion
fails (`removeOk = false`) still returns success. -/
theorem C10_cancel_ok_witness :
    (Recorder.cancel (activeState "/rec/w10.mp4")
        ⟨true, true, false, [("/rec/w10.mp4", 9)]⟩).result = Except.ok () :=
  C10_cancel_ok (activeState "/rec/w10.mp4")
    ⟨true, true, false, [("/rec/w10.mp4", 9)]⟩ ⟨some "/rec/w10.mp4", rfl⟩

/-- C2, counterexample: starting from idle, a successful `start()`
followed by a `stop()` whose pipeline-to-Null state change fails leaves
the recorder in a mixed state — the pipeline slot was already taken
(`none`) when the error returned early, while the session and remote fd
are still populated.  The caller of `stop()` observes this state, which
refutes the all-or-none invariant claim. -/
theorem C2_counterexample :
    consistent ((Recorder.start Recorder.make okStartEnv).st.stop
        (nullFailEnv [])).st = false ∧
    ((Recorder.start Recorder.make okStartEnv).st.stop (nullFailEnv [])).st.pipeline
      = none ∧
    ((Recorder.start Recorder.make okStartEnv).st.stop (nullFailEnv [])).st.session
      = some 2 ∧
    ((Recorder.start Recorder.make okStartEnv).st.stop (nullFailEnv [])).st.remote_fd
      = some 3 :=
  ⟨rfl, rfl, rfl, rfl⟩

/-- C2 (amended): the all-or-none invariant over pipeline, session and
remote fd holds after `new()` and is preserved by `start()` (on success
all three are populated, on any failure the state is untouched), by the
timeout watcher, and by `finish()`/`stop()`/`cancel()` — provided that
when a pipeline is present its forced state change to Null succeeds.
When that state change fails, `finish` returns early with the pipeline
cleared but the session and remote fd still populated, and the mixed
state is visible to the caller. -/
theorem C2_invariant_preserved (st : Recorder) (senv : StartEnv)
    (fenv : FinishEnv) (discard : Bool) (hc : consistent st = true)
    (hnull : st.pipeline = none ∨ fenv.nullOk = true) :
    consistent Recorder.make = true ∧
    consistent (st.start senv).st = true ∧
    consistent (st.finish fenv discard).st = true ∧
    consistent (st.cancel fenv).st = true ∧
    consistent (timeoutFire st).1 = true := by
  refine ⟨by decide, ?_, ?_, ?_, ?_⟩
  · rcases start_shape st senv with ⟨heq, _⟩ | ⟨_, pid, sid, rid, outp, heq⟩ <;>
      rw [heq]
    · exact hc
    · rfl
  · rw [finish_st_cleared st fenv discard hnull]; rfl
  · rw [cancel_st_eq_finish_st, finish_st_cleared st fenv true hnull]; rfl
  · rw [timeoutFire_st]; exact hc

/-- C2 witness: the invariant is preserved through a concrete
fully-populated active state under an all-ok finish. -/
theorem C2_invariant_preserved_witness :
    consistent ((activeState "/rec/w2.mp4").finish (okEnv []) false).st = true :=
  (C2_invariant_preserved (activeState "/rec/w2.mp4") okStartEnv (okEnv []) false
    (by decide) (Or.inr rfl)).2.2.1

/-- C3, counterexample: from a populated active recorder, let the
timeout watcher fire first (it wins the swap, observing true); a manual
`finish` then observes false (its swap event records `false`) and yet
still performs teardown work — it sends EOS, forces the pipeline state,
and closes the session.  This refutes the part of the claim saying the
loser of the swap performs no teardown work. -/
theorem C3_counterexample :
    (timeoutFire (activeState "/rec/c3.mp4")).2.1 = true ∧
    Event.swapFlag false ∈
      ((timeoutFire (activeState "/rec/c3.mp4")).1.finish (okEnv []) false).events ∧
    Event.swapFlag true ∉
      ((timeoutFire (activeState "/rec/c3.mp4")).1.finish (okEnv []) false).events ∧
    Event.sendEos ∈
      ((timeoutFire (activeState "/rec/c3.mp4")).1.finish (okEnv []) false).events ∧
    Event.setStateNull true ∈
      ((timeoutFire (activeState "/rec/c3.mp4")).1.finish (okEnv []) false).events ∧
    Event.closeSession true ∈
      ((timeoutFire (activeState "/rec/c3.mp4")).1.finish (okEnv []) false).events := by
  decide

/-- C3 (amended): starting from an active flag, in each interleaving of
the watcher's swap and a manual finish's swap exactly one observes true:
if the watcher fires first it observes true and logs, and the later
manual finish's swap records false (and only false); if the manual
finish runs first its swap records true, and a watcher firing afterwards
observes false, does not log, and does nothing beyond its swap.  The
loser of the swap does not, however, skip teardown in general: a manual
finish that observes false still tears resources down (it is the sole
teardown path); only the timeout watcher never performs teardown. -/
theorem C3_swap_race (st : Recorder) (env : FinishEnv) (discard : Bool)
    (h : st.is_recording = true) :
    (timeoutFire st).2.1 = true ∧
    Event.logTimeoutStop ∈ (timeoutFire st).2.2 ∧
    Event.swapFlag false ∈ ((timeoutFire st).1.finish env discard).events ∧
    (∀ b, Event.swapFlag b ∈ ((timeoutFire st).1.finish env discard).events →
      b = false) ∧
    Event.swapFlag true ∈ (st.finish env discard).events ∧
    (timeoutFire (st.finish env discard).st).2.1 = false ∧
    (timeoutFire (st.finish env discard).st).2.2 = [Event.swapFlag false] := by
  refine ⟨?_, ?_, ?_, ?_, ?_, ?_, ?_⟩
  · simp [timeoutFire, h]
  · simp [timeoutFire, h]
  · rw [timeoutFire_st]
    simpa using finish_emits_swap { st with is_recording := false } env discard
  · intro b hb
    rw [timeoutFire_st] at hb
    simpa using finish_swap_only_entry _ env discard b hb
  · have := finish_emits_swap st env discard
    rwa [h] at this
  · rw [timeoutFire_observed, finish_flag_cleared]
  · exact timeoutFire_events_when_false _ (finish_flag_cleared st env discard)

/-- C3 witness: a concrete manual finish on an active recorder records
the winning swap that observed true. -/
theorem C3_swap_race_witness :
    Event.swapFlag true ∈
      (Recorder.finish (activeState "/rec/w3.mp4") (okEnv []) false).events :=
  (C3_swap_race (activeState "/rec/w3.mp4") (okEnv []) false rfl).2.2.2.2.1

/-- C4, counterexample: with a broker that advertises neither Monitor
nor Window (every call up to that point succeeding), `start()` does fail
with the no-sources error, but the event trace of the run contains the
session-creation event: `create_session()` at line 179 of
`src/recorder.rs` runs before the source-type check at line 191.  This
refutes the "before any broker session has been created" part of the
claim. -/
theorem C4_counterexample :
    (Recorder.start Recorder.make noSourcesStartEnv).result =
      Except.error (Error.ScreenCapture noSourcesMsg) ∧
    Event.createSession ∈ (Recorder.start Recorder.make noSourcesStartEnv).events :=
  ⟨rfl, by decide⟩

/-- C4 (amended): if the broker advertises neither Monitor nor Window,
`start()` fails with the no-sources-advertised error — but only after a
broker session has already been created; the failure does come before
source selection and before the session is started. -/
theorem C4_no_sources_after_session (st : Recorder) (env : StartEnv)
    (hrec : st.is_recording = false) (htime : env.timeOk = true)
    (hmk : env.mkdirOk = true) (hnew : env.broker.newOk = true)
    (hcreate : env.broker.createOk = true) (havail : env.broker.availOk = true)
    (hm : env.broker.available.monitor = false)
    (hw : env.broker.available.window = false) :
    (st.start env).result = Except.error (Error.ScreenCapture noSourcesMsg) ∧
    Event.createSession ∈ (st.start env).events ∧
    Event.selectSources ∉ (st.start env).events ∧
    Event.startSession ∉ (st.start env).events := by
  have hbuild : build_pipeline env.broker =
      (.error (.ScreenCapture noSourcesMsg),
        [Event.createSession, Event.queryAvailableTypes]) := by
    unfold build_pipeline
    rcases hv : env.broker.available.virtual_ <;>
      simp [hnew, hcreate, havail, hv, hm, hw, SourceTypes.union,
        SourceTypes.inter, SourceTypes.containsType]
  unfold Recorder.start recordingPathOf
  simp [hrec, htime, hmk, hbuild]

/-- C4 witness: the amended behavior at the concrete no-sources
environment. -/
theorem C4_no_sources_after_session_witness :
    (Recorder.start Recorder.make noSourcesStartEnv).result =
      Except.error (Error.ScreenCapture noSourcesMsg) :=
  (C4_no_sources_after_session Recorder.make noSourcesStartEnv
    rfl rfl rfl rfl rfl rfl rfl rfl).1

/-- C6, counterexample: a `finish(discard = false)` call whose
read-and-clear observed true and whose output path points at a file of
positive size returns neither none nor the path when the pipeline's
forced state change to Null fails — it returns the propagated error,
refuting the claim's universal "for every call" statement. -/
theorem C6_counterexample :
    (activeState "/rec/c6.mp4").is_recording = true ∧
    (activeState "/rec/c6.mp4").recording_path = some "/rec/c6.mp4" ∧
    fsLookup [("/rec/c6.mp4", 7)] "/rec/c6.mp4" = some 7 ∧
    (Recorder.finish (activeState "/rec/c6.mp4")
        (nullFailEnv [("/rec/c6.mp4", 7)]) false).result =
      Except.error Error.GstreamerState :=
  ⟨rfl, rfl, rfl, rfl⟩

/-- C6 (amended): for `finish(discard = false)` with the flag observed
true and a path set, provided the pipeline state change to Null during
teardown succeeds (or no pipeline is present; otherwise `finish`
propagates that error): if the file does not exist or has zero length,
a best-effort deletion of it is performed (the file is gone whenever the
removal call succeeds) and `finish` returns none; if the file has
positive length, `finish` returns the path and leaves the filesystem
untouched. -/
theorem C6_save_decision (st : Recorder) (env : FinishEnv) (p : String)
    (hact : st.is_recording = true) (hpath : st.recording_path = some p)
    (hnull : st.pipeline = none ∨ env.nullOk = true) :
    ((fsLookup env.fs p = none ∨ fsLookup env.fs p = some 0) →
      ((st.finish env false).result = Except.ok none ∧
       Event.removeFile p env.removeOk ∈ (st.finish env false).events ∧
       (env.removeOk = true → fsLookup (st.finish env false).fs p = none))) ∧
    (∀ n, fsLookup env.fs p = some n → 0 < n →
      ((st.finish env false).result = Except.ok (some p) ∧
       (st.finish env false).fs = env.fs)) := by
  unfold Recorder.finish
  rcases hp : st.pipeline with _ | q
  · simp only [hp, hact]
    exact finishRest_save _ env _ p hpath
  · rcases hnull with hn | hn
    · rw [hp] at hn; cases hn
    · simp only [hp, hn, if_true, hact]
      exact finishRest_save _ env _ p hpath

/-- C6 witness: a concrete active recorder with a 3-byte file is saved:
`finish(false)` returns the path and leaves the filesystem unchanged. -/
theorem C6_save_decision_witness :
    (Recorder.finish (activeState "/rec/w6.mp4")
        (okEnv [("/rec/w6.mp4", 3)]) false).result =
      Except.ok (some "/rec/w6.mp4") ∧
    (Recorder.finish (activeState "/rec/w6.mp4")
        (okEnv [("/rec/w6.mp4", 3)]) false).fs = (okEnv [("/rec/w6.mp4", 3)]).fs :=
  (C6_save_decision (activeState "/rec/w6.mp4") (okEnv [("/rec/w6.mp4", 3)])
    "/rec/w6.mp4" rfl rfl (Or.inr rfl)).2 3 rfl (by decide)

/-- C8, counterexample: after the timeout watcher fires on an active
recorder (a state reached by `start()` then the 60 s timer),
`isRecording()` is false and yet `elapsed()` still returns a duration,
because `elapsed` reads only `start_time`, which the watcher leaves in
place.  This refutes "returns empty/none in every other state". -/
theorem C8_counterexample :
    (timeoutFire (activeState "/rec/c8.mp4")).1.isRecording = false ∧
    (timeoutFire (activeState "/rec/c8.mp4")).1.elapsed 5 = some 5 :=
  ⟨rfl, rfl⟩

/-- C8 (amended): `elapsed()` follows `start_time`, not the active
flag: after a successful `start()` from idle it returns now − startTime
(and `isRecording()` is true); after the timeout watcher fires it still
returns now − startTime even though `isRecording()` is now false; it
returns none after `finish` completes teardown (when the pipeline
state change succeeded), which clears `start_time`. -/
theorem C8_elapsed_follows_start_time (st : Recorder) (senv : StartEnv)
    (fenv : FinishEnv) (discard : Bool) (now : Nat)
    (hidle : st.is_recording = false)
    (hok : (st.start senv).result = Except.ok ())
    (hnull : st.pipeline = none ∨ fenv.nullOk = true) :
    ((st.start senv).st.elapsed now = some (now - senv.now) ∧
     (st.start senv).st.isRecording = true) ∧
    ((timeoutFire (st.start senv).st).1.elapsed now = some (now - senv.now) ∧
     (timeoutFire (st.start senv).st).1.isRecording = false) ∧
    ((st.finish fenv discard).st.elapsed now = none ∧
     (st.finish fenv discard).st.isRecording = false) := by
  rcases start_shape st senv with ⟨heq, himp⟩ | ⟨_, pid, sid, rid, outp, heq⟩
  · exact absurd (himp hok) (by simp [hidle])
  · refine ⟨⟨?_, ?_⟩, ⟨?_, ?_⟩, ?_, ?_⟩
    · rw [heq]; rfl
    · rw [heq]; rfl
    · rw [heq, timeoutFire_st]; rfl
    · rw [heq, timeoutFire_st]; rfl
    · rw [finish_st_cleared st fenv discard hnull]; rfl
    · rw [finish_st_cleared st fenv discard hnull]; rfl

/-- C8 witness: concrete successful start at instant 100, queried at
instant 105. -/
theorem C8_elapsed_follows_start_time_witness :
    (Recorder.make.start okStartEnv).st.elapsed 105 = some 5 ∧
    (Recorder.make.start okStartEnv).st.isRecording = true :=
  (C8_elapsed_follows_start_time Recorder.make okStartEnv (okEnv []) false 105
    rfl rfl (Or.inl rfl)).1

end HyprRecorder
